import Mathlib

/-!
Verification of the diagnostic synchronization and refactoring pipeline of the
vscode-hlint extension (`src/extension.ts`, plus earlier revisions of the same
design).  Pure fragments of the TypeScript source are embedded as executable
Lean definitions; the asynchronous RxJS pipeline of `startLinting` is embedded
as a small-step trace semantics over the per-document diagnostic state.
-/

namespace VscodeHlint

/-! ## Data model: HLint messages and VSCode diagnostics -/

/-- An HLint severity, as in `type HLintSeverity` of `src/extension.ts`.
The TypeScript union has exactly these four string values. -/
inductive HLintSeverity where
  | Ignore
  | Suggestion
  | Warning
  | Error
deriving DecidableEq, Repr

/-- An HLint message as it appears in HLint JSON output
(`interface IHLintMessage`, `src/extension.ts`).  The fields named `from` and
`to` in the source are called `fromExpr` and `toText` here because `from` and
`to` are reserved tokens in Lean.
Line/column numbers are JavaScript numbers carrying integers, embedded as
`Int` so that the `- 1` translation behaves exactly as in JavaScript. -/
structure HLintMessage where
  module : String
  decl : String
  severity : HLintSeverity
  hint : String
  file : String
  startLine : Int
  startColumn : Int
  endLine : Int
  endColumn : Int
  fromExpr : String
  toText : String
  note : List String
  refactorings : String
deriving DecidableEq, Repr

/-- A VSCode diagnostic severity (the four members used by the source). -/
inductive DiagnosticSeverity where
  | Error
  | Warning
  | Information
  | Hint
deriving DecidableEq, Repr

/-- A VSCode `Range`: zero-based start/end line and character. -/
structure VsRange where
  startLine : Int
  startCharacter : Int
  endLine : Int
  endCharacter : Int
deriving DecidableEq, Repr

/-- The fields of a VSCode `Diagnostic` that the extension sets: the range,
message and severity passed to the constructor, plus the `source` tag and the
`code` side channel assigned afterwards in `toDiagnostic`. -/
structure Diagnostic where
  range : VsRange
  message : String
  severity : DiagnosticSeverity
  source : String
  code : String
deriving DecidableEq, Repr

/-- JavaScript truthiness of a string: every string except `""` is truthy. -/
def jsTruthy (s : String) : Bool := s != ""

/-- `HLINT_SOURCE` from `src/extension.ts`. -/
def HLINT_SOURCE : String := "hlint"

/-- `toDiagnosticSeverity` from `src/extension.ts`: Suggestion maps to Hint,
Warning to Warning, Error to Error, and the default case (Ignore) to
Information. -/
def toDiagnosticSeverity : HLintSeverity → DiagnosticSeverity
  | .Suggestion => .Hint
  | .Warning => .Warning
  | .Error => .Error
  | .Ignore => .Information

/-- `toDiagnostic` from `src/extension.ts` (lines 118-136): subtract 1 from
each of the four 1-based coordinates, render the message as
`"{hint}. Replace with {to}"` when `to` is truthy (non-empty) and as the bare
hint otherwise, map the severity, tag the source as `"hlint"`, and stash the
refactoring descriptor in the `code` field. -/
def toDiagnostic (m : HLintMessage) : Diagnostic :=
  { range :=
      { startLine := m.startLine - 1
        startCharacter := m.startColumn - 1
        endLine := m.endLine - 1
        endCharacter := m.endColumn - 1 }
    message := if jsTruthy m.toText then m.hint ++ ". Replace with " ++ m.toText else m.hint
    severity := toDiagnosticSeverity m.severity
    source := HLINT_SOURCE
    code := m.refactorings }

/-! ## Version gate

`getExpectedVersion` in `src/extension.ts` extracts a version string and calls
`semver.satisfies(version, range, true)` with the fixed range
`VERSION_RANGES.hlint = ">=2.0.8 || <2 >=1.9.25"`.  The `semver` library is an
external dependency; its behaviour on this fixed range is embedded below: the
range is a disjunction of two comparator sets, where a comparator against the
partial version `2` means `< 2.0.0`, and comparison is lexicographic on the
(major, minor, patch) triple.  The version strings of interest are plain
dotted triples, for which loose parsing coincides with strict parsing. -/

/-- A parsed semantic version: major, minor and patch components. -/
structure SemVersion where
  major : Nat
  minor : Nat
  patch : Nat
deriving DecidableEq, Repr

/-- Split a character list into the groups separated by dots. -/
def splitOnDot : List Char → List (List Char)
  | [] => [[]]
  | c :: cs =>
    let rest := splitOnDot cs
    if c = '.' then [] :: rest
    else
      match rest with
      | [] => [[c]]
      | g :: gs => (c :: g) :: gs

/-- Decimal value of a non-empty all-digit character list. -/
def digitsVal? (cs : List Char) : Option Nat :=
  if !cs.isEmpty && cs.all Char.isDigit then
    some (cs.foldl (fun n c => 10 * n + (c.toNat - 48)) 0)
  else none

/-- Parse a plain dotted version triple such as `"2.0.8"`. -/
def parseVersion (s : String) : Option SemVersion :=
  match splitOnDot s.toList with
  | [a, b, c] =>
    match digitsVal? a, digitsVal? b, digitsVal? c with
    | some x, some y, some z => some ⟨x, y, z⟩
    | _, _, _ => none
  | _ => none

/-- Strict lexicographic order on semantic versions, as used by semver. -/
def versionLt (a b : SemVersion) : Bool :=
  Nat.blt a.major b.major ||
    (a.major == b.major &&
      (Nat.blt a.minor b.minor ||
        (a.minor == b.minor && Nat.blt a.patch b.patch)))

/-- Reflexive companion of `versionLt`. -/
def versionGe (a b : SemVersion) : Bool := !(versionLt a b)

/-- The fixed requirement `VERSION_RANGES.hlint = ">=2.0.8 || <2 >=1.9.25"`
(`src/extension.ts` lines 446-449): either at least 2.0.8, or below 2.0.0 and
at least 1.9.25. -/
def satisfiesHlintRequirement (v : SemVersion) : Bool :=
  versionGe v ⟨2, 0, 8⟩ || (versionLt v ⟨2, 0, 0⟩ && versionGe v ⟨1, 9, 25⟩)

/-- The version-gate decision of `getExpectedVersion` applied to an extracted
hlint version string: parse it and check it against the required range; an
unparsable version never satisfies the range. -/
def hlintVersionAccepted (s : String) : Bool :=
  match parseVersion s with
  | some v => satisfiesHlintRequirement v
  | none => false

/-! ## Process execution boundary

`runInWorkspace` in `src/extension.ts` (lines 145-161) wraps Node's
`execFile`.  `execFile` invokes its callback with an `error` argument that is
non-null exactly for a spawn failure or a non-zero exit status (never for mere
standard-error output), plus the captured `stdout` and `stderr` strings.  The
callback in the current source binds only `(error, stdout)`. -/

/-- The observable arguments `execFile` hands to its completion callback:
`error` is `some` of an error message for a spawn failure or non-zero exit,
and `none` when the process exited with status zero. -/
structure ProcResult where
  error : Option String
  stdout : String
  stderr : String
deriving DecidableEq, Repr

/-- The outcome `runInWorkspace` produces from an `execFile` callback
(`src/extension.ts` lines 149-157): `observer.error(error)` when `error` is
set, otherwise `observer.next(stdout)`.  The `stderr` argument is not even
bound by the callback. -/
def runInWorkspaceResult (r : ProcResult) : Except String String :=
  match r.error with
  | some e => .error e
  | none => .ok r.stdout

/-- A JavaScript error value as inspected by the earlier file-based revision:
a message plus the optional numeric `errno` of system errors. -/
structure JsExecError where
  message : String
  errno : Option Int
deriving DecidableEq, Repr

/-- JavaScript truthiness of the `errno` property: present and non-zero. -/
def errnoTruthy (e : JsExecError) : Bool :=
  match e.errno with
  | some n => n != 0
  | none => false

/-- What the file-based `lintDocument` callback does with one `execFile`
completion (revision `unnamed/part_000`, lines 122-134): report a system
error when `error && error.errno`, report `hslint failed: {stderr}` when
standard error is non-empty, and otherwise publish the parsed stdout. -/
inductive FileLintAction where
  | reportError (message : String)
  | publish (stdout : String)
deriving DecidableEq, Repr

/-- The `execFile` callback of the file-based `lintDocument` revision
(`unnamed/part_000` lines 122-134), embedded branch for branch. -/
def part000LintCallback (error : Option JsExecError) (stdout stderr : String) :
    FileLintAction :=
  if (match error with | some e => errnoTruthy e | none => false) then
    .reportError ("Failed to run hlint: " ++
      (match error with | some e => e.message | none => ""))
  else if stderr.length > 0 then
    .reportError ("hslint failed: " ++ stderr)
  else
    .publish stdout

/-! ## The linting pipeline of `startLinting` as a trace semantics

`startLinting` (`src/extension.ts` lines 337-375) maps each debounced
document event to `lintDocument(document).catch(...)` and flattens the inner
observables with `mergeAll()`.  `mergeAll` subscribes to every inner
observable as soon as it arrives and forwards emissions in the order the
child processes complete.  On a successful completion the subscriber runs
`diagnostics.set(document.uri, messages.filter((m) => m.file === "-")
.map(toDiagnostic))`; the per-observable `catch` handler runs
`diagnostics.delete(document.uri)` when the cycle fails.  A separate
subscription deletes the document entry on `onDidCloseTextDocument`.

The semantics below tracks one document: its entry in the diagnostic
collection (`none` when the collection holds no set for it) and the lint
cycles dispatched but not yet completed, in dispatch order.  Events are the
dispatch of a lint cycle (tagged with the outcome its child process will
eventually produce), the completion of a dispatched cycle, and the closing of
the document.  Nothing in the source cancels an in-flight cycle or consults
dispatch order or close state when a completion arrives, and the model
reflects that. -/

/-- The outcome of one lint cycle: either hlint succeeded and its JSON output
parsed into a message list, or the cycle failed (spawn failure, non-zero
exit, or output on which `JSON.parse` throws; all three reach the same
`catch` handler). -/
inductive LintOutcome where
  | success (messages : List HLintMessage)
  | failure
deriving DecidableEq, Repr

/-- The diagnostic list the subscriber in `startLinting` publishes for a
successful result (`src/extension.ts` lines 365-368): messages whose `file`
field is the stdin sentinel `"-"`, converted by `toDiagnostic`. -/
def publishedDiagnostics (msgs : List HLintMessage) : List Diagnostic :=
  (msgs.filter (fun m => m.file == "-")).map toDiagnostic

/-- Effect of a completed lint cycle on the document entry of the diagnostic
collection: `diagnostics.set` of the filtered converted messages on success,
`diagnostics.delete` (entry absent) on failure. -/
def completeEffect : LintOutcome → Option (List Diagnostic)
  | .success msgs => some (publishedDiagnostics msgs)
  | .failure => none

/-- An event of the per-document linting pipeline. -/
inductive Ev where
  | dispatch (id : Nat) (outcome : LintOutcome)
  | complete (id : Nat)
  | close
deriving DecidableEq, Repr

/-- The per-document state: in-flight cycles in dispatch order, and the
document entry of the diagnostic collection (`none` = no set stored). -/
structure DocState where
  pending : List (Nat × LintOutcome)
  diags : Option (List Diagnostic)
deriving DecidableEq, Repr

/-- One step of the pipeline.  A dispatch appends an in-flight cycle; a
completion of a known cycle removes it from flight and overwrites the
document entry with that cycle's effect, regardless of dispatch order and of
whether the document was closed; a close deletes the entry but leaves
in-flight cycles running. -/
def step (st : DocState) : Ev → DocState
  | .dispatch id o => { st with pending := st.pending ++ [(id, o)] }
  | .complete id =>
    match st.pending.lookup id with
    | some o =>
      { pending := st.pending.filter (fun p => p.1 != id)
        diags := completeEffect o }
    | none => st
  | .close => { st with diags := none }

/-- The initial state: nothing in flight, no stored diagnostic set. -/
def initState : DocState := ⟨[], none⟩

/-- Run a trace of pipeline events from the initial state. -/
def run (evs : List Ev) : DocState := evs.foldl step initState

/-! ## Refactor applier -/

/-- The `map` at the end of `refactor` (`src/extension.ts` lines 214-222):
when stdout is non-empty, drop its final character (the extra newline the
tool appends); when it is empty, produce `null` (here `none`). -/
def refactorResult (stdout : String) : Option String :=
  if 0 < stdout.length then some (stdout.dropRight 1) else none

/-- The remainder of `applyRefactorings` (`src/extension.ts` lines 234-257):
`.filter((code) => !!code)` drops both `null` and the empty string, the
surviving code becomes a whole-document replacement edit, and
`.defaultIfEmpty(false)` reports "not applied" when nothing survived.
`some code` models the applied edit's replacement text; `none` models the
`false` (not applied, no edit) result. -/
def applyRefactoringsEdit (stdout : String) : Option String :=
  match refactorResult stdout with
  | some code => if jsTruthy code then some code else none
  | none => none

/-! ## Standard input handling of `runInWorkspace` -/

/-- What `runInWorkspace` does to the child's standard input stream. -/
inductive StdinEffect where
  | untouched
  | writtenAndClosed (s : String)
deriving DecidableEq, Repr

/-- The `if (stdin) { child.stdin.end(stdin); }` branch of `runInWorkspace`
(`src/extension.ts` lines 158-160): the optional `stdin` argument (`none`
models an omitted argument) guards the branch by JavaScript truthiness, so an
empty string skips it and the stream is neither written nor closed. -/
def stdinEffect (stdin : Option String) : StdinEffect :=
  match stdin with
  | some s => if jsTruthy s then .writtenAndClosed s else .untouched
  | none => .untouched

/-! ## Activation gating of the refactor tool

`activate` (`src/extension.ts` lines 476-496) guards the refactoring features
with `getExpectedVersion("apply-refact", ...)` and a `catch` handler.  The
handler's first test is `error.name instanceof VersionError`.  `error.name`
is a string primitive, and in JavaScript `x instanceof C` is `false` for
every primitive `x`, whatever `C` is — so this test is identically false. -/

/-- A JavaScript error as inspected by the activation catch handler: its
`name` (`"VersionError"` for version errors), its message, and the optional
`code` property of system errors (`"ENOENT"` when the executable is
missing). -/
structure JsActivationError where
  name : String
  message : String
  code : Option String
deriving DecidableEq, Repr

/-- The JavaScript expression `error.name instanceof VersionError`
(`src/extension.ts` line 480): `error.name` is a string primitive and
`instanceof` applied to a primitive is always `false`. -/
def nameInstanceofVersionError (_e : JsActivationError) : Bool := false

/-- Result of the refactor-tool gating `catch` handler. -/
inductive RefactorGateResult where
  | warnAndSkip (message : String)
  | errorAndSkip (message : String)
  | rethrow
deriving DecidableEq, Repr

/-- The `catch` handler of `enableRefactoring` (`src/extension.ts` lines
479-491): show a warning and continue with an empty observable when
`error.name instanceof VersionError`; show an error message and continue when
`error.code === "ENOENT"`; otherwise rethrow the error, which makes the
promise returned by `activate` reject. -/
def refactorVersionCatch (e : JsActivationError) : RefactorGateResult :=
  if nameInstanceofVersionError e then
    .warnAndSkip ("HLint suggestions not available: " ++ e.message)
  else if e.code == some "ENOENT" then
    .errorAndSkip "HLint suggestions not available: apply-refact missing"
  else
    .rethrow

/-! ## Concrete sample messages for witnesses and counterexamples -/

/-- A sample stdin-attributed message (the structure of the end-to-end
scenario of the spec): warning at 1-based coordinates (3,5)-(3,20) with a
replacement text. -/
def msgA : HLintMessage :=
  { module := "Main"
    decl := "main"
    severity := .Warning
    hint := "Redundant bracket"
    file := "-"
    startLine := 3
    startColumn := 5
    endLine := 3
    endColumn := 20
    fromExpr := "(foo bar)"
    toText := "foo bar"
    note := []
    refactorings := "Replace at 3 5" }

/-- A second stdin-attributed message, distinguishable from `msgA`. -/
def msgB : HLintMessage :=
  { module := "Main"
    decl := "go"
    severity := .Suggestion
    hint := "Use map"
    file := "-"
    startLine := 7
    startColumn := 1
    endLine := 8
    endColumn := 10
    fromExpr := "go xs"
    toText := ""
    note := []
    refactorings := "Replace at 7 1" }

/-- A message attributed to another file. -/
def msgOtherA : HLintMessage :=
  { msgA with file := "/a.hs", hint := "Eta reduce" }

/-- A message attributed to yet another file. -/
def msgOtherB : HLintMessage :=
  { msgB with file := "/b.hs" }

/-! ## Helper lemmas about the trace semantics -/

/-- Running a trace extended by one event steps once from the end state. -/
theorem run_append_single (evs : List Ev) (e : Ev) :
    run (evs ++ [e]) = step (run evs) e := by
  simp [run, List.foldl_append]

/-! ## Claim theorems -/

/-- C1 counterexample: the claim asserts version `3.0.0` is rejected, but
`3.0.0` satisfies the first disjunct `>=2.0.8` of the requirement range, so
the version gate accepts it. -/
theorem version_gate_accepts_3_0_0 :
    hlintVersionAccepted "3.0.0" = true := by
  decide

/-- C1 (amended): the version gate, checking a tool version string against
the requirement range `>=2.0.8 || <2 >=1.9.25` as `getExpectedVersion` does,
rejects `2.0.7` and accepts `2.0.8`, `1.9.25`, `1.9.30` — and also accepts
`3.0.0`, since every version at or above 2.0.8 satisfies the first
disjunct. -/
theorem hlint_version_gate_cases :
    hlintVersionAccepted "2.0.7" = false ∧
    hlintVersionAccepted "2.0.8" = true ∧
    hlintVersionAccepted "1.9.25" = true ∧
    hlintVersionAccepted "1.9.30" = true ∧
    hlintVersionAccepted "3.0.0" = true := by
  decide

/-- C2 counterexample: with cycle 0 (messages `[msgA]`) dispatched before
cycle 1 (messages `[msgB]`), both in flight, and cycle 0 completing last, the
stored set is cycle 0's — the stale, slower, earlier-dispatched response
overwrites the fresher one, contradicting the claim that the set after both
complete is the later-dispatched cycle's. -/
theorem stale_completion_overwrites_fresh :
    (run [.dispatch 0 (.success [msgA]), .dispatch 1 (.success [msgB]),
          .complete 1, .complete 0]).diags = some (publishedDiagnostics [msgA]) ∧
    publishedDiagnostics [msgA] ≠ publishedDiagnostics [msgB] := by
  decide

/-- C2 (amended): publication is in completion order — a completing cycle
always overwrites the stored set with its own full filtered result, wholesale
(never an interleaving of two cycles), so the stored set after both complete
is that of whichever cycle completed last, regardless of dispatch order. -/
theorem last_completed_cycle_wins (evs : List Ev) (id : Nat)
    (msgs : List HLintMessage)
    (h : (run evs).pending.lookup id = some (.success msgs)) :
    (run (evs ++ [.complete id])).diags = some (publishedDiagnostics msgs) := by
  simp [run_append_single, step, h, completeEffect]

/-- Witness for `last_completed_cycle_wins` at a concrete trace with two
in-flight cycles, the earlier-dispatched one completing last. -/
theorem last_completed_cycle_wins_witness :
    (run ([.dispatch 0 (.success [msgA]), .dispatch 1 (.success [msgB]),
           .complete 1] ++ [.complete 0])).diags =
      some (publishedDiagnostics [msgA]) :=
  last_completed_cycle_wins
    [.dispatch 0 (.success [msgA]), .dispatch 1 (.success [msgB]), .complete 1]
    0 [msgA] (by decide)

/-- C3 counterexample: a lint cycle dispatched before the document is closed
and completing after it republishes its diagnostics — the set does not remain
absent after the close. -/
theorem late_result_resurrects_after_close :
    (run [.dispatch 0 (.success [msgA]), .close, .complete 0]).diags =
      some (publishedDiagnostics [msgA]) ∧
    publishedDiagnostics [msgA] ≠ [] := by
  decide

/-- C3 (amended): closing the document immediately removes its stored
diagnostic set, but a lint result completing after the close is not
discarded: its completion republishes that cycle's diagnostics. -/
theorem close_clears_then_late_completion_republishes (evs : List Ev)
    (id : Nat) (msgs : List HLintMessage)
    (h : (run evs).pending.lookup id = some (.success msgs)) :
    (run (evs ++ [.close])).diags = none ∧
    (run (evs ++ [.close, .complete id])).diags =
      some (publishedDiagnostics msgs) := by
  constructor
  · simp [run_append_single, step]
  · have heq : evs ++ [.close, .complete id] =
        (evs ++ [Ev.close]) ++ [Ev.complete id] := by simp
    rw [heq, run_append_single, run_append_single]
    simp [step, h, completeEffect]

/-- Witness for `close_clears_then_late_completion_republishes` at the
concrete trace of one dispatched cycle. -/
theorem close_clears_then_late_completion_republishes_witness :
    (run ([.dispatch 0 (.success [msgA])] ++ [.close])).diags = none ∧
    (run ([.dispatch 0 (.success [msgA])] ++ [.close, .complete 0])).diags =
      some (publishedDiagnostics [msgA]) :=
  close_clears_then_late_completion_republishes
    [.dispatch 0 (.success [msgA])] 0 [msgA] (by decide)

/-- C4 counterexample: with exit status zero (`error` is `null`) and
non-empty standard error, `runInWorkspace` in `src/extension.ts` succeeds
with the captured stdout — standard error is never inspected, so the lint
operation does not fail. -/
theorem stderr_ignored_counterexample :
    (ProcResult.mk none "[]" "hlint: ignoring unknown option").stderr ≠ "" ∧
    runInWorkspaceResult (ProcResult.mk none "[]" "hlint: ignoring unknown option") =
      .ok "[]" :=
  ⟨by decide, rfl⟩

/-- C4 (amended): the current stdin-based `runInWorkspace` ignores standard
error entirely — its outcome is independent of the stderr text, failing
exactly when `execFile` reports an error — whereas the earlier file-based
revision (`unnamed/part_000`) did treat non-empty standard error as a failure
even on exit status zero. -/
theorem stderr_ignored_now_fatal_in_filebased (e : Option String)
    (stdout s1 s2 stderr : String) (h : 0 < stderr.length) :
    runInWorkspaceResult ⟨e, stdout, s1⟩ = runInWorkspaceResult ⟨e, stdout, s2⟩ ∧
    part000LintCallback none stdout stderr =
      .reportError ("hslint failed: " ++ stderr) := by
  constructor
  · cases e <;> rfl
  · simp [part000LintCallback, h]

/-- Witness for `stderr_ignored_now_fatal_in_filebased` at concrete process
results. -/
theorem stderr_ignored_now_fatal_in_filebased_witness :
    runInWorkspaceResult ⟨none, "[]", ""⟩ = runInWorkspaceResult ⟨none, "[]", "w"⟩ ∧
    part000LintCallback none "[]" "w" = .reportError ("hslint failed: " ++ "w") :=
  stderr_ignored_now_fatal_in_filebased none "[]" "" "w" "w" (by decide)

/-- C5 (code bug): the activation `catch` handler tests
`error.name instanceof VersionError`, which is always false because
`error.name` is a string primitive; a `VersionError` (Unsatisfied or
ParseError outcome of the refactor-tool version check) therefore reaches the
final `throw error` and the promise returned by `activate` rejects, with no
warning shown — while a missing tool (`ENOENT`) is caught non-fatally. -/
theorem refactor_version_error_rethrown :
    refactorVersionCatch
      ⟨"VersionError",
       "apply-refact version 0.1.0 did not meet requirements >= 0.3", none⟩ =
      .rethrow ∧
    refactorVersionCatch ⟨"Error", "spawn refactor ENOENT", some "ENOENT"⟩ =
      .errorAndSkip "HLint suggestions not available: apply-refact missing" := by
  decide

/-- C6: a failed lint cycle (spawn failure, non-zero exit, or malformed
output — all reaching the same `catch` which runs `diagnostics.delete`)
leaves a document that previously had a non-empty published set with no
stored diagnostics. -/
theorem failed_cycle_clears_diagnostics (evs : List Ev) (id : Nat)
    (ds : List Diagnostic)
    (_hprev : (run evs).diags = some ds) (_hne : ds ≠ [])
    (hpend : (run evs).pending.lookup id = some .failure) :
    (run (evs ++ [.complete id])).diags = none := by
  simp [run_append_single, step, hpend, completeEffect]

/-- Witness for `failed_cycle_clears_diagnostics`: a successful cycle
publishes a non-empty set, then a failing cycle completes. -/
theorem failed_cycle_clears_diagnostics_witness :
    (run ([.dispatch 0 (.success [msgA]), .complete 0, .dispatch 1 .failure]
          ++ [.complete 1])).diags = none :=
  failed_cycle_clears_diagnostics
    [.dispatch 0 (.success [msgA]), .complete 0, .dispatch 1 .failure]
    1 (publishedDiagnostics [msgA]) (by decide) (by decide) (by decide)

/-- C7: when the refactor tool's standard output is empty or exactly the one
synthesized trailing newline, `applyRefactorings` applies no edit and reports
"not applied" (`none` here models the `false` result with no edit). -/
theorem refactor_noop_on_empty_output :
    applyRefactoringsEdit "" = none ∧ applyRefactoringsEdit "\n" = none := by
  decide

/-- C8: the subscriber of `startLinting` publishes exactly the diagnostics of
messages whose `file` field equals the linted document's identifier — the
stdin sentinel `"-"`, since the current implementation always lints via
standard input; messages for other files never appear. -/
theorem published_diagnostics_exactly_stdin (msgs : List HLintMessage)
    (d : Diagnostic) :
    d ∈ publishedDiagnostics msgs ↔
      ∃ m, m ∈ msgs ∧ m.file = "-" ∧ d = toDiagnostic m := by
  simp only [publishedDiagnostics, List.mem_map, List.mem_filter, beq_iff_eq]
  constructor
  · rintro ⟨m, ⟨hm, hf⟩, rfl⟩
    exact ⟨m, hm, hf, rfl⟩
  · rintro ⟨m, hm, hf, rfl⟩
    exact ⟨m, ⟨hm, hf⟩, rfl⟩

/-- Witness for `published_diagnostics_exactly_stdin` on a message list with
files `-`, `/a.hs` and `/b.hs`. -/
theorem published_diagnostics_exactly_stdin_witness :
    toDiagnostic msgA ∈ publishedDiagnostics [msgA, msgOtherA, msgOtherB] :=
  (published_diagnostics_exactly_stdin [msgA, msgOtherA, msgOtherB]
    (toDiagnostic msgA)).mpr ⟨msgA, by decide, rfl, rfl⟩

/-- C9: for a message with 1-based coordinates, `toDiagnostic` produces the
0-based range obtained by subtracting exactly 1 from each coordinate. -/
theorem toDiagnostic_range_shift (m : HLintMessage)
    (h1 : 1 ≤ m.startLine) (h2 : 1 ≤ m.startColumn)
    (h3 : 1 ≤ m.endLine) (h4 : 1 ≤ m.endColumn) :
    (toDiagnostic m).range =
      ⟨m.startLine - 1, m.startColumn - 1, m.endLine - 1, m.endColumn - 1⟩ ∧
    0 ≤ (toDiagnostic m).range.startLine ∧
    0 ≤ (toDiagnostic m).range.startCharacter ∧
    0 ≤ (toDiagnostic m).range.endLine ∧
    0 ≤ (toDiagnostic m).range.endCharacter := by
  refine ⟨rfl, ?_, ?_, ?_, ?_⟩ <;> simp only [toDiagnostic] <;> omega

/-- Witness for `toDiagnostic_range_shift`: the spec's end-to-end message at
1-based (3,5)-(3,20) yields the 0-based range (2,4)-(2,19). -/
theorem toDiagnostic_range_shift_witness :
    (toDiagnostic msgA).range = ⟨2, 4, 2, 19⟩ :=
  (toDiagnostic_range_shift msgA (by decide) (by decide) (by decide)
    (by decide)).1

/-- C10: `runInWorkspace` skips the stdin branch for an omitted argument and
for the empty string (the JavaScript truthiness test), leaving the child's
standard input stream untouched, while every non-empty text is written and
the stream closed. -/
theorem stdin_branch_skipped_iff_empty (s : String) (h : s ≠ "") :
    stdinEffect (some "") = .untouched ∧
    stdinEffect none = .untouched ∧
    stdinEffect (some s) = .writtenAndClosed s := by
  refine ⟨rfl, rfl, ?_⟩
  simp [stdinEffect, jsTruthy, h]

/-- Witness for `stdin_branch_skipped_iff_empty` on a non-empty document
text. -/
theorem stdin_branch_skipped_iff_empty_witness :
    stdinEffect (some "") = .untouched ∧
    stdinEffect none = .untouched ∧
    stdinEffect (some "main = print 42") = .writtenAndClosed "main = print 42" :=
  stdin_branch_skipped_iff_empty "main = print 42" (by decide)

end VscodeHlint
